import Mathlib

/-!
Shallow embedding of the Ansible module
`lib/ansible/modules/cloud/digital_ocean/digital_ocean_domain_record.py`.

The module reconciles one DigitalOcean DNS record: it resolves an API token,
lists the records of a domain, scans them for an exact field match, and issues
at most one create or delete call.  We embed the `core` function and the
top-level `main` exception handler, with the provider (the dopy `DoManager`)
modelled as a conduct structure giving the response of each possible call, and
the sequence of provider calls recorded as an explicit trace.
-/

namespace DODomainRecord

/-- A DNS record as returned by the provider API (a response dict whose keys
become attributes of a `DomainRecord` object via `__dict__.update`).  Optional
fields are `None` in Python when not applicable, hence `Option` here. -/
structure DoRecord where
  id : Int
  type : Option String
  data : Option String
  name : Option String
  priority : Option Int
  port : Option Int
  weight : Option Int
deriving DecidableEq

/-- The module parameters as seen by `core` (after `AnsibleModule` processing:
defaults applied, choices validated, `None` for unset optional parameters). -/
structure ModuleParams where
  state : String
  api_token : Option String
  domain : Option String
  type : Option String
  data : Option String
  name : Option String
  priority : Option Int
  port : Option Int
  weight : Option Int
deriving DecidableEq

/-- The raw invocation arguments before `AnsibleModule` applies the
`argument_spec` (defaults for `state` and `type`, choice validation). -/
structure ModuleArgs where
  state : Option String
  api_token : Option String
  domain : Option String
  type : Option String
  data : Option String
  name : Option String
  priority : Option Int
  port : Option Int
  weight : Option Int
deriving DecidableEq

/-- The two environment variables consulted by `core`, `none` when unset. -/
structure Env where
  DO_API_TOKEN : Option String
  DO_API_KEY : Option String
deriving DecidableEq

/-- A Python exception reaching the top-level handler of `main`: the module
defines `TimeoutError(DoError)` carrying a record id; every other exception
(`DoError`, `AttributeError`, ...) carries only its message. -/
inductive PyExc where
  | timeoutError (msg : String) (id : Int)
  | otherExc (msg : String)
deriving DecidableEq

/-- `str(e)` of an exception. -/
def PyExc.message : PyExc → String
  | .timeoutError m _ => m
  | .otherExc m => m

/-- A network call to the provider, as issued by `DomainRecord.list_all`,
`DomainRecord.add` and `DomainRecord.destroy` through the shared manager. -/
inductive ApiCall where
  | listRecords (domain : String)
  | newRecord (domain : String) (type data name : Option String)
      (priority port weight : Option Int)
  | destroyRecord (domain : String) (id : Int)
deriving DecidableEq

/-- A call that mutates provider state (create or delete, not list). -/
def ApiCall.isMutation : ApiCall → Bool
  | .listRecords _ => false
  | .newRecord _ _ _ _ _ _ _ => true
  | .destroyRecord _ _ => true

/-- The provider's behaviour for the single invocation: the response of each
call the module can make, each either a value or a raised exception. -/
structure ProviderConduct where
  listResp : Except PyExc (List DoRecord)
  createResp : Except PyExc DoRecord
  destroyResp : Except PyExc String


/-- How one run of `core` ends: `module.exit_json` (success envelope),
`module.fail_json` called inside `core` (terminates via `SystemExit`, which
the handler in `main` does not catch), or an uncaught Python exception. -/
inductive Outcome where
  | exited (changed : Bool) (record : Option DoRecord) (event : Option String)
  | failed (msg : String)
  | raised (e : PyExc)
deriving DecidableEq

/-- The final result of the whole invocation after `main`'s handler. -/
inductive FinalResult where
  | success (changed : Bool) (record : Option DoRecord) (event : Option String)
  | failure (msg : String) (id : Option Int)
deriving DecidableEq

/-- Does the character list start with the given pattern (pattern first)? -/
def startsWithChars : List Char → List Char → Bool
  | [], _ => true
  | _ :: _, [] => false
  | c :: cs, d :: ds => c == d && startsWithChars cs ds

/-- Is `sub` a contiguous sublist of `hay`? -/
def containsChars (sub : List Char) : List Char → Bool
  | [] => sub.isEmpty
  | c :: t => startsWithChars sub (c :: t) || containsChars sub t

/-- Python's `sub in s` substring test on strings, as used by the source's
`state in ('present')` and `state in ('absent')` conditions, where
`('present')` is a plain string, not a tuple. -/
def pyIn (sub s : String) : Bool :=
  containsChars sub.toList s.toList

/-- The token resolution expression of `core` (line 247):
`module.params['api_token'] or os.environ['DO_API_TOKEN'] or
os.environ['DO_API_KEY']`.  `None` and the empty string are falsy;
`os.environ[k]` raises `KeyError k` when the variable is unset, which `core`
turns into `fail_json`.  The error value is the `KeyError` key. -/
def resolveToken (apiToken : Option String) (env : Env) : Except String String :=
  match apiToken with
  | some s => if s ≠ "" then .ok s else resolveFromEnv env
  | none => resolveFromEnv env
where
  /-- The `or` chain over the two environment lookups. -/
  resolveFromEnv (env : Env) : Except String String :=
    match env.DO_API_TOKEN with
    | none => .error "DO_API_TOKEN"
    | some t =>
      if t ≠ "" then .ok t
      else
        match env.DO_API_KEY with
        | none => .error "DO_API_KEY"
        | some k => .ok k

/-- The comparison inside `DomainRecord.find_record` (lines 197-199):
`record.type == type and record.data == data and record.name == name and
record.priority == priority and record.port == port and
record.weight == weight`.  Python `==` against `None` is `None == None` only;
this is `Option` equality.  The record's `id` is not consulted. -/
def matchesRequest (type data name : Option String)
    (priority port weight : Option Int) (r : DoRecord) : Bool :=
  r.type == type && r.data == data && r.name == name &&
    r.priority == priority && r.port == port && r.weight == weight

/-- `DomainRecord.find_record` restricted to its pure part: scan the listed
records for the first match; the source returns `False` when none matches,
modelled as `none`. -/
def find_record (records : List DoRecord) (type data name : Option String)
    (priority port weight : Option Int) : Option DoRecord :=
  records.find? (matchesRequest type data name priority port weight)

/-- The `core` function (lines 239-282), returning the trace of provider
calls together with the outcome.  Steps in source order: token resolution,
`getkeyordie("type")`, `getkeyordie("domain")`, `Domain.setup` (constructs the
manager, no network call), the `if not domain` falsy check, the list call via
`find_record`, then the three-way decision.  In the fall-through case with no
record found, `record` is Python `False` and `record.to_json()` raises
`AttributeError`. -/
def coreRun (p : ModuleParams) (env : Env) (pr : ProviderConduct) :
    List ApiCall × Outcome :=
  match resolveToken p.api_token env with
  | .error k => ([], .failed ("Unable to load " ++ k))
  | .ok _tok =>
    match p.type with
    | none => ([], .failed "Unable to load type")
    | some ty =>
      match p.domain with
      | none => ([], .failed "Unable to load domain")
      | some dn =>
        if dn = "" then ([], .failed ("Domain not found " ++ dn))
        else
          match pr.listResp with
          | .error e => ([.listRecords dn], .raised e)
          | .ok records =>
            match find_record records (some ty) p.data p.name
                p.priority p.port p.weight with
            | none =>
              if pyIn p.state "present" then
                match pr.createResp with
                | .error e =>
                  ([.listRecords dn,
                    .newRecord dn (some ty) p.data p.name
                      p.priority p.port p.weight], .raised e)
                | .ok rec =>
                  ([.listRecords dn,
                    .newRecord dn (some ty) p.data p.name
                      p.priority p.port p.weight],
                   .exited true (some rec) none)
              else
                ([.listRecords dn],
                 .raised (.otherExc
                   "\u0027bool\u0027 object has no attribute \u0027to_json\u0027"))
            | some rec =>
              if pyIn p.state "absent" then
                match pr.destroyResp with
                | .error e =>
                  ([.listRecords dn, .destroyRecord dn rec.id], .raised e)
                | .ok ack =>
                  ([.listRecords dn, .destroyRecord dn rec.id],
                   .exited true none (some ack))
              else
                ([.listRecords dn], .exited false (some rec) none)

/-- The `state` choices of the `argument_spec`. -/
def stateChoices : List String := ["present", "absent"]

/-- The `type` choices of the `argument_spec`. -/
def typeChoices : List String := ["A", "AAAA", "CNAME", "MX", "TXT", "SRV", "NS"]

/-- `AnsibleModule` argument processing for this module's `argument_spec`:
apply the defaults (`state='present'`, `type='A'`) and validate the choices;
no parameter is marked required. -/
def processArgs (a : ModuleArgs) : Except String ModuleParams :=
  let st := a.state.getD "present"
  let ty := a.type.getD "A"
  if ¬ stateChoices.contains st then
    .error ("value of state must be one of: present,absent, got: " ++ st)
  else if ¬ typeChoices.contains ty then
    .error ("value of type must be one of: A,AAAA,CNAME,MX,TXT,SRV,NS, got: " ++ ty)
  else
    .ok { state := st, api_token := a.api_token, domain := a.domain,
          type := some ty, data := a.data, name := a.name,
          priority := a.priority, port := a.port, weight := a.weight }

/-- The `try`/`except` clauses of `main` (lines 301-306): `exit_json` and
`fail_json` terminate via `SystemExit` (not an `Exception` subclass, so not
caught); an uncaught `TimeoutError` becomes `fail_json(msg=str(e), id=e.id)`;
every other `DoError`/`Exception` becomes `fail_json(msg=str(e))`. -/
def handleOutcome : Outcome → FinalResult
  | .exited c r e => .success c r e
  | .failed m => .failure m none
  | .raised (.timeoutError m i) => .failure m (some i)
  | .raised (.otherExc m) => .failure m none

/-- The whole invocation (`main`, lines 285-306): build the module from the
argument spec, run `core` exactly once, and map its outcome through the
top-level exception handler, leaving the provider-call trace untouched. -/
def mainRun (a : ModuleArgs) (env : Env) (pr : ProviderConduct) :
    List ApiCall × FinalResult :=
  match processArgs a with
  | .error m => ([], .failure m none)
  | .ok p => ((coreRun p env pr).1, handleOutcome (coreRun p env pr).2)

/-- What it means for an optional result to be the first element of `l`
satisfying `q`: a `some r` satisfies `q` and everything before `r` in `l`
fails `q`; a `none` means no element of `l` satisfies `q`. -/
def FirstMatchSpec {α : Type} (q : α → Bool) (l : List α) : Option α → Prop
  | some r => q r = true ∧
      ∃ pre post, l = pre ++ r :: post ∧ ∀ x ∈ pre, q x = false
  | none => ∀ x ∈ l, q x = false

/-- The parameters produced by `processArgs` when both choices validate. -/
def appliedParams (a : ModuleArgs) : ModuleParams :=
  { state := a.state.getD "present", api_token := a.api_token,
    domain := a.domain, type := some (a.type.getD "A"), data := a.data,
    name := a.name, priority := a.priority, port := a.port,
    weight := a.weight }

/-! ### Concrete fixtures used by witnesses and counterexamples -/

/-- A plain A record as the provider would list it. -/
def recA : DoRecord :=
  { id := 42, type := some "A", data := some "127.0.0.1", name := some "www",
    priority := none, port := none, weight := none }

/-- Environment with neither variable set. -/
def env0 : Env := { DO_API_TOKEN := none, DO_API_KEY := none }

/-- A provider holding no records, answering every call successfully. -/
def prNoRecords : ProviderConduct :=
  { listResp := .ok [], createResp := .ok recA, destroyResp := .ok "OK" }

/-- A provider holding exactly `recA`, answering every call successfully. -/
def prOneRecord : ProviderConduct :=
  { listResp := .ok [recA], createResp := .ok recA, destroyResp := .ok "OK" }

/-- Invocation arguments asking for `recA`'s fields with `state=present`. -/
def argsPresent : ModuleArgs :=
  { state := some "present", api_token := some "tok",
    domain := some "example.com", type := some "A", data := some "127.0.0.1",
    name := some "www", priority := none, port := none, weight := none }

/-- The same request with `state=absent`. -/
def argsAbsent : ModuleArgs := { argsPresent with state := some "absent" }

/-- `argsPresent` after `AnsibleModule` argument processing. -/
def paramsPresent : ModuleParams :=
  { state := "present", api_token := some "tok", domain := some "example.com",
    type := some "A", data := some "127.0.0.1", name := some "www",
    priority := none, port := none, weight := none }

/-- `argsAbsent` after `AnsibleModule` argument processing. -/
def paramsAbsent : ModuleParams := { paramsPresent with state := "absent" }

/-- The concrete request with `data` unset. -/
def argsNoData : ModuleArgs := { argsPresent with data := none }

/-- A provider whose list call is refused (as DigitalOcean does for a bad
token); used to exhibit that a network call is nevertheless attempted. -/
def prAuthRefused : ProviderConduct :=
  { listResp := .error (.otherExc "Unable to authenticate you."),
    createResp := .ok recA, destroyResp := .ok "OK" }

/-! ### Claim theorems -/

/-- C1: the claim says that with `state=absent` and no matching record the
invocation succeeds with `changed=false` and an empty record.  The code
instead reaches `module.exit_json(changed=False, record=record.to_json())`
with `record` bound to Python `False`, so `record.to_json()` raises
`AttributeError` and the invocation surfaces as a failure carrying that
message: the code contradicts its intended no-op result (a code bug). -/
theorem C1_absent_no_match_is_failure :
    mainRun argsAbsent env0 prNoRecords
      = ([ApiCall.listRecords "example.com"],
         FinalResult.failure
           "\u0027bool\u0027 object has no attribute \u0027to_json\u0027"
           none) := rfl

/-- C3: the claim (and the module's own documentation note, line 62) says the
credential falls back to `DO_API_TOKEN` and then to `DO_API_KEY`.  But
`os.environ['DO_API_TOKEN']` raises `KeyError` when that variable is unset,
before `DO_API_KEY` is ever consulted: with `api_token` unset, `DO_API_TOKEN`
unset and `DO_API_KEY` set to a non-empty value, the invocation fails with
`Unable to load DO_API_TOKEN` and no provider call — a code bug. -/
theorem C3_do_api_key_alone_fails :
    mainRun { argsPresent with api_token := none }
        { DO_API_TOKEN := none, DO_API_KEY := some "sometoken" } prNoRecords
      = ([], FinalResult.failure "Unable to load DO_API_TOKEN" none) := rfl

/-- C4: with `state=present` and the invocation reaching the record scan, if
no record matches then exactly one create call is issued carrying the declared
fields and the result is `changed=true` with the provider's created record;
if a record matches, no mutating call is issued and the result is
`changed=false` with the found record. -/
theorem C4_present_reconcile (p : ModuleParams) (env : Env)
    (pr : ProviderConduct) (tok ty dn : String) (records : List DoRecord)
    (rc : DoRecord)
    (hst : p.state = "present")
    (htok : resolveToken p.api_token env = .ok tok)
    (hty : p.type = some ty)
    (hdom : p.domain = some dn)
    (hdn : dn ≠ "")
    (hlist : pr.listResp = .ok records)
    (hcreate : pr.createResp = .ok rc) :
    (find_record records (some ty) p.data p.name p.priority p.port p.weight
        = none →
      coreRun p env pr =
        ([ApiCall.listRecords dn,
          ApiCall.newRecord dn (some ty) p.data p.name
            p.priority p.port p.weight],
         .exited true (some rc) none)) ∧
    (∀ rec,
      find_record records (some ty) p.data p.name p.priority p.port p.weight
          = some rec →
      coreRun p env pr = ([ApiCall.listRecords dn],
        .exited false (some rec) none)) := by
  constructor
  · intro hfind
    unfold coreRun
    simp only [htok, hty, hdom, hlist, hfind, hcreate, hst]
    rw [if_neg hdn]
    rfl
  · intro rec hfind
    unfold coreRun
    simp only [htok, hty, hdom, hlist, hfind, hst]
    rw [if_neg hdn]
    rfl

/-- C4 witness: the theorem applied to the concrete `present` request against
an empty provider and against a provider holding the matching record. -/
theorem C4_present_reconcile_witness :
    (find_record [] (some "A") (some "127.0.0.1") (some "www") none none none
        = none →
      coreRun paramsPresent env0 prNoRecords =
        ([ApiCall.listRecords "example.com",
          ApiCall.newRecord "example.com" (some "A") (some "127.0.0.1")
            (some "www") none none none],
         .exited true (some recA) none)) ∧
    (∀ rec,
      find_record [] (some "A") (some "127.0.0.1") (some "www") none none none
          = some rec →
      coreRun paramsPresent env0 prNoRecords = ([ApiCall.listRecords "example.com"],
        .exited false (some rec) none)) :=
  C4_present_reconcile paramsPresent env0 prNoRecords "tok" "A" "example.com"
    [] recA rfl rfl rfl rfl (by decide) rfl rfl

/-- C5: with `state=absent` and a matching record found, exactly one delete
call is issued, keyed by the matched record's provider-assigned `id`, and the
result is `changed=true` carrying the provider's deletion acknowledgement. -/
theorem C5_absent_delete (p : ModuleParams) (env : Env) (pr : ProviderConduct)
    (tok ty dn : String) (records : List DoRecord) (rec : DoRecord)
    (ack : String)
    (hst : p.state = "absent")
    (htok : resolveToken p.api_token env = .ok tok)
    (hty : p.type = some ty)
    (hdom : p.domain = some dn)
    (hdn : dn ≠ "")
    (hlist : pr.listResp = .ok records)
    (hfind : find_record records (some ty) p.data p.name p.priority p.port
        p.weight = some rec)
    (hdel : pr.destroyResp = .ok ack) :
    coreRun p env pr
      = ([ApiCall.listRecords dn, ApiCall.destroyRecord dn rec.id],
         .exited true none (some ack)) := by
  unfold coreRun
  simp only [htok, hty, hdom, hlist, hfind, hdel, hst]
  rw [if_neg hdn]
  rfl

/-- C5 witness: the theorem applied to the concrete `absent` request against
the provider holding the matching record `recA` (id 42). -/
theorem C5_absent_delete_witness :
    coreRun paramsAbsent env0 prOneRecord
      = ([ApiCall.listRecords "example.com",
          ApiCall.destroyRecord "example.com" 42],
         .exited true none (some "OK")) :=
  C5_absent_delete paramsAbsent env0 prOneRecord "tok" "A" "example.com"
    [recA] recA "OK" rfl rfl rfl rfl (by decide) rfl rfl rfl

/-- `List.find?` returns the first element satisfying the predicate. -/
theorem find_first_characterization {α : Type} (q : α → Bool) (l : List α) :
    FirstMatchSpec q l (l.find? q) := by
  induction l with
  | nil => simp [FirstMatchSpec]
  | cons a t ih =>
    by_cases h : q a = true
    · rw [List.find?_cons_of_pos _ h]
      exact ⟨h, [], t, rfl, by simp⟩
    · rw [List.find?_cons_of_neg _ (by simpa using h)]
      cases hf : t.find? q with
      | none =>
        rw [hf] at ih
        intro x hx
        rcases List.mem_cons.mp hx with rfl | hx
        · simpa using h
        · exact ih x hx
      | some r =>
        rw [hf] at ih
        obtain ⟨hq, pre, post, hl, hpre⟩ := ih
        refine ⟨hq, a :: pre, post, by rw [hl]; rfl, ?_⟩
        intro x hx
        rcases List.mem_cons.mp hx with rfl | hx
        · simpa using h
        · exact hpre x hx

/-- C6: `find_record` returns the first record in list order whose
(type, data, name, priority, port, weight) tuple equals the request's fields
by value — `None` matching only `None` — and `none` (the source's `False`
marker) when no record matches; the record's provider id plays no part in
the comparison. -/
theorem C6_find_record_first_match (records : List DoRecord)
    (t d n : Option String) (p po w : Option Int) :
    FirstMatchSpec (matchesRequest t d n p po w) records
      (find_record records t d n p po w) ∧
    (∀ (r : DoRecord) (i : Int),
      matchesRequest t d n p po w { r with id := i } =
        matchesRequest t d n p po w r) ∧
    (d = none → ∀ r : DoRecord,
      matchesRequest t d n p po w r = true → r.data = none) := by
  refine ⟨find_first_characterization _ records, fun r i => rfl, ?_⟩
  intro hd r h
  subst hd
  simp only [matchesRequest, Bool.and_eq_true, beq_iff_eq] at h
  exact h.1.1.1.1.2

/-- C6 witness: the characterization applied to a concrete two-record list in
which only the second record matches the request. -/
theorem C6_find_record_first_match_witness :
    FirstMatchSpec
      (matchesRequest (some "A") (some "127.0.0.1") (some "www")
        none none none)
      [{ recA with data := some "10.0.0.9", id := 5 }, recA]
      (find_record [{ recA with data := some "10.0.0.9", id := 5 }, recA]
        (some "A") (some "127.0.0.1") (some "www") none none none) ∧
    (∀ (r : DoRecord) (i : Int),
      matchesRequest (some "A") (some "127.0.0.1") (some "www") none none none
          { r with id := i } =
        matchesRequest (some "A") (some "127.0.0.1") (some "www") none none
          none r) ∧
    (some "127.0.0.1" = none → ∀ r : DoRecord,
      matchesRequest (some "A") (some "127.0.0.1") (some "www") none none none
          r = true → r.data = none) :=
  C6_find_record_first_match
    [{ recA with data := some "10.0.0.9", id := 5 }, recA]
    (some "A") (some "127.0.0.1") (some "www") none none none

/-- Every run of `core` issues either no provider call, exactly one list
call, or exactly one list call followed by exactly one mutating call. -/
theorem coreRun_trace_shape (p : ModuleParams) (env : Env)
    (pr : ProviderConduct) :
    (coreRun p env pr).1 = [] ∨
    (∃ dn, (coreRun p env pr).1 = [ApiCall.listRecords dn]) ∨
    (∃ dn c, (coreRun p env pr).1 = [ApiCall.listRecords dn, c] ∧
      c.isMutation = true) := by
  unfold coreRun
  repeat' split
  all_goals
    first
      | exact Or.inl rfl
      | exact Or.inr (Or.inl ⟨_, rfl⟩)
      | exact Or.inr (Or.inr ⟨_, _, rfl, rfl⟩)

/-- C7: in every invocation the provider trace is empty (the run failed
before contacting the provider), or a single list call, or a list call
followed by exactly one mutating call: the list read always precedes any
mutation, and no invocation issues two mutations. -/
theorem C7_single_read_single_mutation (a : ModuleArgs) (env : Env)
    (pr : ProviderConduct) :
    (mainRun a env pr).1 = [] ∨
    (∃ dn, (mainRun a env pr).1 = [ApiCall.listRecords dn]) ∨
    (∃ dn c, (mainRun a env pr).1 = [ApiCall.listRecords dn, c] ∧
      c.isMutation = true) := by
  cases hpa : processArgs a with
  | error m => exact Or.inl (by simp [mainRun, hpa])
  | ok p =>
    have h := coreRun_trace_shape p env pr
    simpa only [mainRun, hpa] using h

/-- C7 witness: the trace-shape property applied to the concrete delete
invocation (one list call followed by one delete call). -/
theorem C7_single_read_single_mutation_witness :
    (mainRun argsAbsent env0 prOneRecord).1 = [] ∨
    (∃ dn, (mainRun argsAbsent env0 prOneRecord).1
      = [ApiCall.listRecords dn]) ∨
    (∃ dn c, (mainRun argsAbsent env0 prOneRecord).1
      = [ApiCall.listRecords dn, c] ∧ c.isMutation = true) :=
  C7_single_read_single_mutation argsAbsent env0 prOneRecord

/-- C2 counterexample: with `api_token` unset and both environment variables
set to the empty string, no credential resolves to a non-empty token — the
`or` chain yields the empty string — yet the invocation does not fail before
a network call: the list call is issued.  This refutes the claim as stated. -/
theorem C2_counterexample_empty_env_reaches_network :
    resolveToken ({ argsPresent with api_token := none } : ModuleArgs).api_token
        { DO_API_TOKEN := some "", DO_API_KEY := some "" } = .ok "" ∧
    (mainRun { argsPresent with api_token := none }
        { DO_API_TOKEN := some "", DO_API_KEY := some "" } prAuthRefused).1
      = [ApiCall.listRecords "example.com"] :=
  ⟨rfl, rfl⟩

/-- C2 (amended): when `api_token` is unset (or empty) and an environment
lookup raises — `DO_API_TOKEN` unset, or `DO_API_TOKEN` empty and
`DO_API_KEY` unset — the invocation fails before any network call, for every
combination of the other parameters.  (When both variables are set but empty,
the module instead proceeds with an empty token, as the counterexample
shows.) -/
theorem C2_missing_credential_fails_before_network (a : ModuleArgs)
    (env : Env) (pr : ProviderConduct)
    (htok : a.api_token = none ∨ a.api_token = some "")
    (henv : env.DO_API_TOKEN = none ∨
      (env.DO_API_TOKEN = some "" ∧ env.DO_API_KEY = none)) :
    (mainRun a env pr).1 = [] ∧
    ∃ m, (mainRun a env pr).2 = FinalResult.failure m none := by
  have hfe : ∃ k, resolveToken.resolveFromEnv env = .error k := by
    rcases henv with h | ⟨h1, h2⟩
    · exact ⟨"DO_API_TOKEN", by simp [resolveToken.resolveFromEnv, h]⟩
    · exact ⟨"DO_API_KEY", by simp [resolveToken.resolveFromEnv, h1, h2]⟩
  obtain ⟨k, hk⟩ := hfe
  have hres : resolveToken a.api_token env = .error k := by
    rcases htok with h | h <;> simp [resolveToken, h, hk]
  cases hpa : processArgs a with
  | error m => exact ⟨by simp [mainRun, hpa], m, by simp [mainRun, hpa]⟩
  | ok p =>
    have hap : p.api_token = a.api_token := by
      simp only [processArgs] at hpa
      split at hpa
      · exact absurd hpa (by simp)
      · split at hpa
        · exact absurd hpa (by simp)
        · injection hpa with h
          subst h
          rfl
    have hcore : coreRun p env pr
        = ([], .failed ("Unable to load " ++ k)) := by
      unfold coreRun
      rw [hap, hres]
    refine ⟨?_, "Unable to load " ++ k, ?_⟩ <;>
      simp [mainRun, hpa, hcore, handleOutcome]

/-- C2 witness: the amended theorem applied with `api_token` unset and both
environment variables unset. -/
theorem C2_missing_credential_witness :
    (mainRun { argsPresent with api_token := none } env0 prNoRecords).1
        = [] ∧
    ∃ m, (mainRun { argsPresent with api_token := none } env0
        prNoRecords).2 = FinalResult.failure m none :=
  C2_missing_credential_fails_before_network
    { argsPresent with api_token := none } env0 prNoRecords
    (Or.inl rfl) (Or.inl rfl)

/-- C8: how the exit code of each uncaught exception surfaces: `main` runs
`core` exactly once (the provider trace is exactly `core`'s, so no retry),
and an exception raised during the run is surfaced as a failure carrying the
exception's message — with the affected record id attached exactly when the
exception is timeout-class. -/
theorem C8_exceptions_surfaced (a : ModuleArgs) (env : Env)
    (pr : ProviderConduct) (p : ModuleParams) (e : PyExc)
    (hp : processArgs a = .ok p)
    (hr : (coreRun p env pr).2 = .raised e) :
    (mainRun a env pr).1 = (coreRun p env pr).1 ∧
    (mainRun a env pr).2 = .failure e.message
      (match e with
       | .timeoutError _ i => some i
       | .otherExc _ => none) := by
  refine ⟨by simp [mainRun, hp], ?_⟩
  simp only [mainRun, hp, hr]
  cases e <;> rfl

/-- C8 witness: a provider whose list call raises `TimeoutError` with record
id 7; the failure envelope carries the message and that id. -/
theorem C8_exceptions_surfaced_witness :
    (mainRun argsPresent env0
        { listResp := .error (.timeoutError "timed out" 7),
          createResp := .ok recA, destroyResp := .ok "OK" }).1
      = (coreRun paramsPresent env0
        { listResp := .error (.timeoutError "timed out" 7),
          createResp := .ok recA, destroyResp := .ok "OK" }).1 ∧
    (mainRun argsPresent env0
        { listResp := .error (.timeoutError "timed out" 7),
          createResp := .ok recA, destroyResp := .ok "OK" }).2
      = .failure (PyExc.timeoutError "timed out" 7).message (some 7) :=
  C8_exceptions_surfaced argsPresent env0
    { listResp := .error (.timeoutError "timed out" 7),
      createResp := .ok recA, destroyResp := .ok "OK" }
    paramsPresent (.timeoutError "timed out" 7) rfl rfl

/-- C9: reconciliation with `state=present` is idempotent through
match-then-act: if one invocation succeeds with a create (`changed=true` with
the created record) and the provider afterwards lists a record carrying the
request's declared field values, then the identical request run again finds a
matching record, issues no mutating call (its trace is the single list call),
and reports `changed=false` with the found record. -/
theorem C9_present_create_then_idempotent (p : ModuleParams) (env : Env)
    (pr1 pr2 : ProviderConduct) (rc : DoRecord) (records2 : List DoRecord)
    (hst : p.state = "present")
    (h1 : (coreRun p env pr1).2 = .exited true (some rc) none)
    (hl2 : pr2.listResp = .ok records2)
    (h2 : ∃ r ∈ records2,
      matchesRequest p.type p.data p.name p.priority p.port p.weight r
        = true) :
    ∃ dn rec,
      coreRun p env pr2
        = ([ApiCall.listRecords dn], .exited false (some rec) none) ∧
      matchesRequest p.type p.data p.name p.priority p.port p.weight rec
        = true := by
  unfold coreRun at h1
  split at h1
  · simp at h1
  next tok htok =>
    split at h1
    · simp at h1
    next ty hty =>
      split at h1
      · simp at h1
      next dn hdom =>
        split at h1
        next hdq => simp at h1
        next hdn =>
          rw [hty] at h2
          obtain ⟨r0, hr0mem, hr0⟩ := h2
          have hne : records2.find? (matchesRequest (some ty) p.data p.name
              p.priority p.port p.weight) ≠ none := by
            intro hn
            have := List.find?_eq_none.mp hn r0 hr0mem
            simp [hr0] at this
          cases hfind : records2.find? (matchesRequest (some ty) p.data
              p.name p.priority p.port p.weight) with
          | none => exact absurd hfind hne
          | some rec =>
            have hm : matchesRequest (some ty) p.data p.name p.priority
                p.port p.weight rec = true := List.find?_some hfind
            refine ⟨dn, rec, ?_, by rw [hty]; exact hm⟩
            unfold coreRun
            simp only [htok, hty, hdom, hl2, find_record, hfind, hst]
            rw [if_neg hdn]
            rfl

/-- C9 witness: the concrete `present` request run against an empty provider
(first run creates `recA`), then against a provider now listing `recA`. -/
theorem C9_present_create_then_idempotent_witness :
    ∃ dn rec,
      coreRun paramsPresent env0 prOneRecord
        = ([ApiCall.listRecords dn], .exited false (some rec) none) ∧
      matchesRequest paramsPresent.type paramsPresent.data paramsPresent.name
        paramsPresent.priority paramsPresent.port paramsPresent.weight rec
        = true :=
  C9_present_create_then_idempotent paramsPresent env0 prNoRecords
    prOneRecord recA [recA] rfl rfl rfl ⟨recA, by simp, rfl⟩

/-- `processArgs` succeeds exactly by applying the defaults when both the
`state` and the `type` choice validate. -/
theorem processArgs_eq_ok (a : ModuleArgs)
    (hstv : stateChoices.contains (a.state.getD "present") = true)
    (htyv : typeChoices.contains (a.type.getD "A") = true) :
    processArgs a = .ok (appliedParams a) := by
  have hst' : a.state.getD "present" ∈ stateChoices := by simpa using hstv
  have hty' : a.type.getD "A" ∈ typeChoices := by simpa using htyv
  simp [processArgs, hst', hty', appliedParams]

/-- C10: with the `data` parameter unset the module raises no local
validation failure: argument processing succeeds with `data=None`, the
invocation proceeds to the provider (its trace begins with the list call),
matching treats `data` as `None` — a record matches only if its own `data`
is likewise `None` — and with `state=present` and no matching record the one
create call passes `data` as `None`. -/
theorem C10_data_unset_no_local_failure (a : ModuleArgs) (env : Env)
    (pr : ProviderConduct) (tok dn : String) (records : List DoRecord)
    (hd : a.data = none)
    (hstv : stateChoices.contains (a.state.getD "present") = true)
    (htyv : typeChoices.contains (a.type.getD "A") = true)
    (hdom : a.domain = some dn)
    (hdn : dn ≠ "")
    (htok : resolveToken a.api_token env = .ok tok)
    (hlist : pr.listResp = .ok records) :
    (processArgs a = .ok (appliedParams a) ∧ (appliedParams a).data = none) ∧
    (∃ rest, (mainRun a env pr).1 = ApiCall.listRecords dn :: rest) ∧
    (∀ r : DoRecord,
      matchesRequest (some (a.type.getD "A")) none a.name a.priority a.port
        a.weight r = true → r.data = none) ∧
    (a.state = some "present" →
      (∀ r ∈ records,
        matchesRequest (some (a.type.getD "A")) none a.name a.priority a.port
          a.weight r = false) →
      ∀ rc, pr.createResp = .ok rc →
      mainRun a env pr =
        ([ApiCall.listRecords dn,
          ApiCall.newRecord dn (some (a.type.getD "A")) none a.name
            a.priority a.port a.weight],
         .success true (some rc) none)) := by
  have hpa := processArgs_eq_ok a hstv htyv
  refine ⟨⟨hpa, hd⟩, ?_, ?_, ?_⟩
  · have hcr : ∃ rest, (coreRun (appliedParams a) env pr).1
        = ApiCall.listRecords dn :: rest := by
      unfold coreRun
      simp only [appliedParams, htok, hdom, hlist]
      rw [if_neg hdn]
      repeat' split
      all_goals exact ⟨_, rfl⟩
    obtain ⟨rest, hrest⟩ := hcr
    exact ⟨rest, by simp [mainRun, hpa, hrest]⟩
  · intro r h
    simp only [matchesRequest, Bool.and_eq_true, beq_iff_eq] at h
    exact h.1.1.1.1.2
  · intro hstp hnm rc hrc
    have hfind : find_record records (some (a.type.getD "A")) a.data a.name
        a.priority a.port a.weight = none := by
      rw [hd]
      simp only [find_record]
      exact List.find?_eq_none.mpr (fun x hx => by simp [hnm x hx])
    simp only [mainRun, hpa]
    unfold coreRun
    simp only [appliedParams, htok, hdom, hlist, hfind, hrc, hstp,
      Option.getD_some]
    rw [if_neg hdn]
    rw [hd]
    rfl

/-- C10 witness: the theorem applied to the concrete request with `data`
unset against an empty provider. -/
theorem C10_data_unset_no_local_failure_witness :
    (processArgs argsNoData = .ok (appliedParams argsNoData) ∧
      (appliedParams argsNoData).data = none) ∧
    (∃ rest, (mainRun argsNoData env0 prNoRecords).1
        = ApiCall.listRecords "example.com" :: rest) ∧
    (∀ r : DoRecord,
      matchesRequest (some (argsNoData.type.getD "A")) none argsNoData.name
        argsNoData.priority argsNoData.port argsNoData.weight r = true →
      r.data = none) ∧
    (argsNoData.state = some "present" →
      (∀ r ∈ ([] : List DoRecord),
        matchesRequest (some (argsNoData.type.getD "A")) none argsNoData.name
          argsNoData.priority argsNoData.port argsNoData.weight r = false) →
      ∀ rc, prNoRecords.createResp = .ok rc →
      mainRun argsNoData env0 prNoRecords =
        ([ApiCall.listRecords "example.com",
          ApiCall.newRecord "example.com" (some (argsNoData.type.getD "A"))
            none argsNoData.name argsNoData.priority argsNoData.port
            argsNoData.weight],
         .success true (some rc) none)) :=
  C10_data_unset_no_local_failure argsNoData env0 prNoRecords "tok"
    "example.com" [] rfl (by decide) (by decide) rfl (by decide) rfl rfl

end DODomainRecord
